import Mathlib

/-!
Shallow embedding of the movie catalog core of `myMovieRatingApp`
(`src/movie.c`, `src/main.c`), and theorems settling the specification
claims about record construction, update, display, the catalog's
add/remove/grow operations, and the pipe-delimited save/load codec.
-/

/-- A C `char*` argument of the record functions: `none` models a NULL
pointer, `some s` a valid (possibly empty) NUL-terminated string. -/
abbrev CStr := Option String

/-- The `Movie` struct of `movie.h` (`title`, `director`, `year`,
`rating`).  The C `rating` field is a `float`, but the only write to it in
the whole program is `rate_movie`, which stores an integer 1–5; it is
therefore embedded as `Option Nat`, where `none` models the indeterminate
contents of the field when it has never been assigned (`create_movie`
obtains the struct from `malloc` and assigns `title`, `director` and
`year` but never `rating`). -/
structure Movie where
  title : String
  director : String
  year : Int
  rating : Option Nat
deriving Repr, DecidableEq

/-- The `MovieError` enum of `movie.h`.  The C name of the third
constructor is `MOVIE_ERROR_MEMORY_ALLOCATION`; it is abbreviated here and
is unused by the embedded functions, exactly as in the source. -/
inductive MovieError where
  | MOVIE_SUCCESS
  | MOVIE_ERROR_NULL_POINTER
  | MOVIE_ERROR_MEMORY_ALLOC
deriving Repr, DecidableEq

/-- `create_movie` of `movie.c`.  The guard is
`if (!title || !director || year <= 1800) return NULL;` — a NULL-pointer
check on the strings (an empty string is non-NULL and passes), plus the
year bound.  Allocation failures (malloc/strdup returning NULL) are not
modelled: allocation is assumed to succeed.  The `rating` field of the
malloc-ed struct is never assigned, embedded as `none`. -/
def create_movie (title : CStr) (director : CStr) (year : Int) : Option Movie :=
  match title, director with
  | some t, some d =>
      if year ≤ 1800 then none
      else some { title := t, director := d, year := year, rating := none }
  | _, _ => none

/-- `update_movie` of `movie.c`.  The guard is
`if (!movie || !new_title || !new_director || new_year <= 0)` — again a
NULL check on the strings, not an emptiness check.  On failure the movie
is returned untouched; on success `title`, `director` and `year` are
replaced (`rating` is not touched).  `strdup` failures are not modelled. -/
def update_movie (movie : Option Movie) (new_title : CStr) (new_director : CStr)
    (new_year : Int) : MovieError × Option Movie :=
  match movie, new_title, new_director with
  | some m, some t, some d =>
      if new_year ≤ 0 then (.MOVIE_ERROR_NULL_POINTER, some m)
      else (.MOVIE_SUCCESS,
            some { title := t, director := d, year := new_year, rating := m.rating })
  | m, _, _ => (.MOVIE_ERROR_NULL_POINTER, m)

/-- `display_movie` of `movie.c`, as the text it prints:
`printf("Title: %s,Director: %s,Year: %d\n", ...)` for a non-NULL movie
(note: no space after the commas, and the rating is not printed). -/
def display_movie (movie : Option Movie) : String :=
  match movie with
  | some m =>
      "Title: " ++ m.title ++ ",Director: " ++ m.director ++ ",Year: "
        ++ toString m.year ++ "\n"
  | none => "Attempted to Display a NULL movie.\n"

/-- C5 counterexample: `create_movie` accepts an empty (non-NULL) title —
construction succeeds where the claim says it must fail, so a constructed
record can have an empty title. -/
theorem create_movie_accepts_empty_title :
    create_movie (some "") (some "Nolan") 1900
      = some { title := "", director := "Nolan", year := 1900, rating := none }
    ∧ create_movie (some "") (some "Nolan") 1900 ≠ none := by
  exact ⟨rfl, by decide⟩

/-- C5 (amended): `create_movie` fails exactly when the title or the
director pointer is NULL or the year is at most 1800; an empty but
non-NULL title or director is accepted. -/
theorem create_movie_fails_iff (title director : CStr) (year : Int) :
    create_movie title director year = none
      ↔ title = none ∨ director = none ∨ year ≤ 1800 := by
  cases title with
  | none => simp [create_movie]
  | some t =>
      cases director with
      | none => simp [create_movie]
      | some d =>
          by_cases h : year ≤ 1800 <;> simp [create_movie, h]

/-- C6 counterexample: `update_movie` accepts an empty (non-NULL) new
title — the update succeeds and installs the empty title, where the claim
says it must fail and leave the record unchanged. -/
theorem update_movie_accepts_empty_title :
    update_movie (some { title := "Old", director := "OldDir", year := 2000, rating := none })
        (some "") (some "NewDir") 2024
      = (.MOVIE_SUCCESS,
         some { title := "", director := "NewDir", year := 2024, rating := none }) := rfl

/-- C6 (amended): `update_movie` fails — returning
`MOVIE_ERROR_NULL_POINTER` and leaving the record entirely unchanged —
exactly when the movie, the new title or the new director is NULL or the
new year is at most 0; on success it replaces title, director and year
with the new values (rating untouched).  Empty non-NULL strings are
accepted. -/
theorem update_movie_spec (m : Movie) (new_title new_director : CStr) (new_year : Int) :
    (∀ t d, new_title = some t → new_director = some d → 0 < new_year →
        update_movie (some m) new_title new_director new_year
          = (.MOVIE_SUCCESS,
             some { title := t, director := d, year := new_year, rating := m.rating }))
    ∧ ((new_title = none ∨ new_director = none ∨ new_year ≤ 0) →
        update_movie (some m) new_title new_director new_year
          = (.MOVIE_ERROR_NULL_POINTER, some m))
    ∧ update_movie none new_title new_director new_year
        = (.MOVIE_ERROR_NULL_POINTER, none) := by
  refine ⟨?_, ?_, ?_⟩
  · intro t d ht hd hy
    subst ht; subst hd
    simp [update_movie, Int.not_le.mpr hy]
  · intro h
    rcases h with h | h | h
    · subst h; rfl
    · subst h; cases new_title <;> rfl
    · cases new_title with
      | none => rfl
      | some t =>
          cases new_director with
          | none => rfl
          | some d => simp [update_movie, h]
  · cases new_title <;> cases new_director <;> rfl

/-- Witness for `update_movie_spec` at concrete inputs: a successful
update, a NULL-title failure, and a NULL-movie failure. -/
theorem update_movie_spec_witness :
    update_movie (some { title := "A", director := "B", year := 1999, rating := some 3 })
        (some "C") (some "D") 2001
      = (.MOVIE_SUCCESS,
         some { title := "C", director := "D", year := 2001, rating := some 3 })
    ∧ update_movie (some { title := "A", director := "B", year := 1999, rating := some 3 })
        none (some "D") 2001
      = (.MOVIE_ERROR_NULL_POINTER,
         some { title := "A", director := "B", year := 1999, rating := some 3 }) := by
  refine ⟨?_, ?_⟩
  · exact (update_movie_spec { title := "A", director := "B", year := 1999, rating := some 3 }
      (some "C") (some "D") 2001).1 "C" "D" rfl rfl (by decide)
  · exact (update_movie_spec { title := "A", director := "B", year := 1999, rating := some 3 }
      none (some "D") 2001).2.1 (Or.inl rfl)

/-- C10 counterexample: for the record ("Inception", "Nolan", 2010) the
rendering is `"Title: Inception,Director: Nolan,Year: 2010\n"` — there is
no space after the commas, so it differs from the string the claim
specifies. -/
theorem display_movie_no_space_after_comma :
    display_movie (some { title := "Inception", director := "Nolan", year := 2010, rating := none })
        ≠ "Title: Inception, Director: Nolan, Year: 2010" := by
  decide

/-- C10 (amended): `display_movie` renders exactly
`"Title: {t},Director: {d},Year: {y}\n"` — a comma but no space between
the fields, newline-terminated — and the rating does not influence the
rendering at all. -/
theorem display_movie_spec :
    (∀ (t d : String) (y : Int) (r : Option Nat),
        display_movie (some { title := t, director := d, year := y, rating := r })
          = "Title: " ++ t ++ ",Director: " ++ d ++ ",Year: " ++ toString y ++ "\n")
    ∧ (∀ (m : Movie) (r : Option Nat),
        display_movie (some { m with rating := r }) = display_movie (some m)) := by
  exact ⟨fun t d y r => rfl, fun m r => rfl⟩

/-- A catalog as the callers in `main.c`/`movie.c` hold it: the backing
array of `Movie*` cells (`none` models a NULL cell) together with the
logical count.  `slots.length` plays the role of the allocated capacity;
no operation of the program ever reads a cell at an index `≥ count`, so
cells whose C contents are indeterminate (fresh `malloc`/`realloc` memory)
are represented as `none` without affecting any observable behaviour. -/
structure Catalog where
  slots : List (Option Movie)
  count : Nat
deriving Repr, DecidableEq

/-- The popup outcomes of `delete_movie` in `movie.c`. -/
inductive DeleteResult where
  | invalid
  | deleted
  | canceled
  | badInput
deriving Repr, DecidableEq

/-- The shift loop of `delete_movie`:
`for (i = index; i < *count - 1; i++) (*movies)[i] = (*movies)[i+1];`. -/
def shiftLeftLoop (slots : List (Option Movie)) (i stop : Nat) : List (Option Movie) :=
  if i < stop then shiftLeftLoop (slots.set i (slots.getD (i+1) none)) (i+1) stop
  else slots
termination_by stop - i

theorem getD_set_eq {α : Type} (l : List α) (i : Nat) (a d : α) (h : i < l.length) :
    (l.set i a).getD i d = a := by
  simp [List.getD_eq_getElem?_getD, List.getElem?_set, h]

theorem getD_set_ne {α : Type} (l : List α) (i j : Nat) (a d : α) (h : i ≠ j) :
    (l.set i a).getD j d = l.getD j d := by
  simp [List.getD_eq_getElem?_getD, List.getElem?_set, h]

theorem shiftLeftLoop_length (slots : List (Option Movie)) (i stop : Nat) :
    (shiftLeftLoop slots i stop).length = slots.length := by
  suffices H : ∀ k slots i, stop - i = k →
      (shiftLeftLoop slots i stop).length = List.length slots from H (stop - i) slots i rfl
  intro k
  induction k with
  | zero =>
      intro slots i hk
      rw [shiftLeftLoop, if_neg (by omega)]
  | succ n ih =>
      intro slots i hk
      rw [shiftLeftLoop, if_pos (by omega), ih _ _ (by omega)]
      simp

/-- Element-wise effect of the shift loop: positions in `[i, stop)` take the
value of their right neighbour, everything else is untouched. -/
theorem shiftLeftLoop_getD (slots : List (Option Movie)) (i stop : Nat)
    (hs : stop ≤ slots.length) (j : Nat) :
    (shiftLeftLoop slots i stop).getD j none =
      if i ≤ j ∧ j < stop then slots.getD (j+1) none else slots.getD j none := by
  suffices H : ∀ k slots i, stop ≤ List.length slots → stop - i = k → ∀ j,
      (shiftLeftLoop slots i stop).getD j none =
        if i ≤ j ∧ j < stop then slots.getD (j+1) none else slots.getD j none from
    H (stop - i) slots i hs rfl j
  intro k
  induction k with
  | zero =>
      intro slots i hs hk j
      rw [shiftLeftLoop, if_neg (by omega), if_neg (by omega)]
  | succ n ih =>
      intro slots i hs hk j
      have hlt : i < stop := by omega
      rw [shiftLeftLoop, if_pos hlt,
        ih (slots.set i (slots.getD (i+1) none)) (i+1) (by simpa using hs) (by omega) j]
      by_cases hj1 : i + 1 ≤ j ∧ j < stop
      · rw [if_pos hj1, if_pos (by omega)]
        exact getD_set_ne _ _ _ _ _ (by omega)
      · rw [if_neg hj1]
        by_cases hj2 : j = i
        · subst hj2
          rw [getD_set_eq _ _ _ _ (by omega), if_pos (by omega)]
        · rw [getD_set_ne _ _ _ _ _ (fun h => hj2 h.symm), if_neg (by omega)]

/-- `delete_movie` of `movie.c`.  `index` is a C `int`; `ch` is the key the
user typed at the confirmation popup.  The guard is
`if (index < 0 || index >= *count || !(*movies)[index])`.  On a confirmed
deletion the code frees the record, NULLs the cell at `index`, runs the
shift loop, NULLs the cell at `count - 1` and decrements `count`. -/
def delete_movie (c : Catalog) (index : Int) (ch : Char) : Catalog × DeleteResult :=
  if index < 0 ∨ (c.count : Int) ≤ index ∨ c.slots.getD index.toNat none = none then
    (c, .invalid)
  else if ch = 'y' ∨ ch = 'Y' then
    ({ slots := (shiftLeftLoop (c.slots.set index.toNat none) index.toNat (c.count - 1)).set
          (c.count - 1) none,
       count := c.count - 1 }, .deleted)
  else if ch = 'n' ∨ ch = 'N' then (c, .canceled)
  else (c, .badInput)


/-- C1: a confirmed deletion at a valid, occupied index shifts every
record at a higher position down by one, decrements the count by exactly
one, and leaves the cell at the old `count - 1` empty (NULL); cells below
the index and cells at `count` and beyond are untouched.  An index outside
`[0, count)` (including negative ones) or an already-NULL cell yields the
error popup and leaves the catalog unchanged. -/
theorem delete_movie_spec (c : Catalog) (i : Nat) (ch : Char)
    (hwf : c.count ≤ c.slots.length) (hconf : ch = 'y' ∨ ch = 'Y') :
    (i < c.count → c.slots.getD i none ≠ none →
      (delete_movie c (i : Int) ch).2 = .deleted
      ∧ (delete_movie c (i : Int) ch).1.count = c.count - 1
      ∧ (delete_movie c (i : Int) ch).1.slots.length = c.slots.length
      ∧ (∀ j, j < i → (delete_movie c (i : Int) ch).1.slots.getD j none = c.slots.getD j none)
      ∧ (∀ j, i ≤ j → j + 1 < c.count →
          (delete_movie c (i : Int) ch).1.slots.getD j none = c.slots.getD (j+1) none)
      ∧ (delete_movie c (i : Int) ch).1.slots.getD (c.count - 1) none = none
      ∧ (∀ j, c.count ≤ j →
          (delete_movie c (i : Int) ch).1.slots.getD j none = c.slots.getD j none))
    ∧ ((c.count ≤ i ∨ c.slots.getD i none = none) →
        delete_movie c (i : Int) ch = (c, .invalid))
    ∧ (∀ neg : Int, neg < 0 → delete_movie c neg ch = (c, .invalid)) := by
  have htn : ((i : Int)).toNat = i := by simp
  refine ⟨?_, ?_, ?_⟩
  · intro hi hnn
    have hcond : ¬ ((i : Int) < 0 ∨ (c.count : Int) ≤ (i : Int)
        ∨ c.slots.getD ((i : Int)).toNat none = none) := by
      rintro (h | h | h)
      · omega
      · omega
      · rw [htn] at h; exact hnn h
    have hstep : delete_movie c (i : Int) ch =
        ({ slots := (shiftLeftLoop (c.slots.set i none) i (c.count - 1)).set
              (c.count - 1) none,
           count := c.count - 1 }, .deleted) := by
      unfold delete_movie
      rw [if_neg hcond, if_pos hconf, htn]
    rw [hstep]
    have hlen1 : (c.slots.set i (none : Option Movie)).length = c.slots.length := by simp
    have hstop : c.count - 1 ≤ (c.slots.set i (none : Option Movie)).length := by omega
    have hslen : (shiftLeftLoop (c.slots.set i none) i (c.count - 1)).length
        = c.slots.length := by rw [shiftLeftLoop_length, hlen1]
    refine ⟨rfl, rfl, by simpa using hslen, ?_, ?_, ?_, ?_⟩
    · intro j hj
      show ((shiftLeftLoop (c.slots.set i none) i (c.count - 1)).set
          (c.count - 1) none).getD j none = c.slots.getD j none
      rw [getD_set_ne _ _ _ _ _ (by omega), shiftLeftLoop_getD _ _ _ hstop,
        if_neg (by omega), getD_set_ne _ _ _ _ _ (by omega)]
    · intro j hij hj
      show ((shiftLeftLoop (c.slots.set i none) i (c.count - 1)).set
          (c.count - 1) none).getD j none = c.slots.getD (j+1) none
      rw [getD_set_ne _ _ _ _ _ (by omega), shiftLeftLoop_getD _ _ _ hstop,
        if_pos (by omega), getD_set_ne _ _ _ _ _ (by omega)]
    · show ((shiftLeftLoop (c.slots.set i none) i (c.count - 1)).set
          (c.count - 1) none).getD (c.count - 1) none = none
      exact getD_set_eq _ _ _ _ (by rw [hslen]; omega)
    · intro j hj
      show ((shiftLeftLoop (c.slots.set i none) i (c.count - 1)).set
          (c.count - 1) none).getD j none = c.slots.getD j none
      rw [getD_set_ne _ _ _ _ _ (by omega), shiftLeftLoop_getD _ _ _ hstop,
        if_neg (by omega), getD_set_ne _ _ _ _ _ (by omega)]
  · intro h
    have hcond : ((i : Int) < 0 ∨ (c.count : Int) ≤ (i : Int)
        ∨ c.slots.getD ((i : Int)).toNat none = none) := by
      rcases h with h | h
      · exact Or.inr (Or.inl (by exact_mod_cast h))
      · exact Or.inr (Or.inr (by rw [htn]; exact h))
    unfold delete_movie
    rw [if_pos hcond]
  · intro neg hneg
    unfold delete_movie
    rw [if_pos (Or.inl hneg)]

/-- Witness for `delete_movie_spec`: confirmed deletion of index 1 from a
three-movie catalog shifts the third movie down, empties the last cell and
drops the count to 2; deleting at the out-of-range index 3 is rejected
unchanged. -/
theorem delete_movie_spec_witness :
    (delete_movie
        ⟨[some { title := "A", director := "DA", year := 1990, rating := none },
          some { title := "B", director := "DB", year := 1991, rating := none },
          some { title := "C", director := "DC", year := 1992, rating := none }], 3⟩
        (1 : Nat) 'y').2 = .deleted
    ∧ (delete_movie
        ⟨[some { title := "A", director := "DA", year := 1990, rating := none },
          some { title := "B", director := "DB", year := 1991, rating := none },
          some { title := "C", director := "DC", year := 1992, rating := none }], 3⟩
        (1 : Nat) 'y').1.count = 3 - 1
    ∧ (delete_movie
        ⟨[some { title := "A", director := "DA", year := 1990, rating := none },
          some { title := "B", director := "DB", year := 1991, rating := none },
          some { title := "C", director := "DC", year := 1992, rating := none }], 3⟩
        (1 : Nat) 'y').1.slots.getD 1 none
      = [some { title := "A", director := "DA", year := 1990, rating := none },
         some { title := "B", director := "DB", year := 1991, rating := none },
         some { title := "C", director := "DC", year := 1992, rating := none }].getD (1+1) none
    ∧ delete_movie
        ⟨[some { title := "A", director := "DA", year := 1990, rating := none },
          some { title := "B", director := "DB", year := 1991, rating := none },
          some { title := "C", director := "DC", year := 1992, rating := none }], 3⟩
        (3 : Nat) 'y'
      = (⟨[some { title := "A", director := "DA", year := 1990, rating := none },
           some { title := "B", director := "DB", year := 1991, rating := none },
           some { title := "C", director := "DC", year := 1992, rating := none }], 3⟩, .invalid) := by
  refine ⟨?_, ?_, ?_, ?_⟩
  · exact ((delete_movie_spec
      ⟨[some { title := "A", director := "DA", year := 1990, rating := none },
        some { title := "B", director := "DB", year := 1991, rating := none },
        some { title := "C", director := "DC", year := 1992, rating := none }], 3⟩
      1 'y' (by decide) (Or.inl rfl)).1 (by decide) (by decide)).1
  · exact ((delete_movie_spec
      ⟨[some { title := "A", director := "DA", year := 1990, rating := none },
        some { title := "B", director := "DB", year := 1991, rating := none },
        some { title := "C", director := "DC", year := 1992, rating := none }], 3⟩
      1 'y' (by decide) (Or.inl rfl)).1 (by decide) (by decide)).2.1
  · exact ((delete_movie_spec
      ⟨[some { title := "A", director := "DA", year := 1990, rating := none },
        some { title := "B", director := "DB", year := 1991, rating := none },
        some { title := "C", director := "DC", year := 1992, rating := none }], 3⟩
      1 'y' (by decide) (Or.inl rfl)).1 (by decide) (by decide)).2.2.2.2.1 1 (by decide) (by decide)
  · exact (delete_movie_spec
      ⟨[some { title := "A", director := "DA", year := 1990, rating := none },
        some { title := "B", director := "DB", year := 1991, rating := none },
        some { title := "C", director := "DC", year := 1992, rating := none }], 3⟩
      3 'y' (by decide) (Or.inl rfl)).2.1 (Or.inl (by decide))

/-- The gap scan of the `MENU_MOVIE_ADD` case in `main.c`:
`for (i = 0; i < movie_count; i++) if (movies[i] == NULL) { insert_index = i; break; }`. -/
def findNullLoop (slots : List (Option Movie)) (i count : Nat) : Option Nat :=
  if i < count then
    if slots.getD i none = none then some i else findNullLoop slots (i+1) count
  else none
termination_by count - i

/-- The placement step of the `MENU_MOVIE_ADD` case in `main.c`, after
`create_movie` succeeded: reuse the first NULL cell below `count` if one
exists (count unchanged), else `movies[movie_count++] = new_movie`. -/
def add_movie (c : Catalog) (m : Movie) : Catalog :=
  match findNullLoop c.slots 0 c.count with
  | some j => { c with slots := c.slots.set j (some m) }
  | none => { slots := c.slots.set c.count (some m), count := c.count + 1 }

theorem findNullLoop_eq_none (slots : List (Option Movie)) (count i : Nat)
    (h : ∀ j, i ≤ j → j < count → slots.getD j none ≠ none) :
    findNullLoop slots i count = none := by
  suffices H : ∀ k i, count - i = k →
      (∀ j, i ≤ j → j < count → slots.getD j none ≠ none) →
      findNullLoop slots i count = none from H (count - i) i rfl h
  intro k
  induction k with
  | zero =>
      intro i hk h
      rw [findNullLoop, if_neg (by omega)]
  | succ n ih =>
      intro i hk h
      rw [findNullLoop, if_pos (by omega),
        if_neg (h i (Nat.le_refl i) (by omega)), ih (i+1) (by omega)]
      intro j hj hj2
      exact h j (by omega) hj2

theorem findNullLoop_eq_some (slots : List (Option Movie)) (count j : Nat)
    (hj : j < count) (hnull : slots.getD j none = none)
    (hleast : ∀ l, l < j → slots.getD l none ≠ none) :
    findNullLoop slots 0 count = some j := by
  suffices H : ∀ k i, count - i = k → i ≤ j →
      (∀ l, i ≤ l → l < j → slots.getD l none ≠ none) →
      findNullLoop slots i count = some j from
    H (count - 0) 0 rfl (Nat.zero_le j) (fun l _ hl => hleast l hl)
  intro k
  induction k with
  | zero => intro i hk hij h; omega
  | succ n ih =>
      intro i hk hij h
      rw [findNullLoop, if_pos (by omega)]
      by_cases hcase : i = j
      · subst hcase
        rw [if_pos hnull]
      · rw [if_neg (h i (Nat.le_refl i) (by omega)), ih (i+1) (by omega) (by omega)]
        intro l hl hl2
        exact h l (by omega) hl2

/-- C2: adding a (successfully created) record when every cell below
`count` is occupied places it at index `count` and increments the count;
when some cell below `count` is empty, the record is placed at the lowest
such index, the count is unchanged, and no other cell moves. -/
theorem add_movie_spec (c : Catalog) (m : Movie) (hwf : c.count < c.slots.length) :
    ((∀ i, i < c.count → c.slots.getD i none ≠ none) →
      (add_movie c m).count = c.count + 1
      ∧ (add_movie c m).slots.getD c.count none = some m
      ∧ (add_movie c m).slots.length = c.slots.length
      ∧ (∀ k, k ≠ c.count → (add_movie c m).slots.getD k none = c.slots.getD k none))
    ∧ (∀ j, j < c.count → c.slots.getD j none = none →
        (∀ i, i < j → c.slots.getD i none ≠ none) →
        (add_movie c m).count = c.count
        ∧ (add_movie c m).slots.getD j none = some m
        ∧ (add_movie c m).slots.length = c.slots.length
        ∧ (∀ k, k ≠ j → (add_movie c m).slots.getD k none = c.slots.getD k none)) := by
  constructor
  · intro hfull
    have hfind : findNullLoop c.slots 0 c.count = none :=
      findNullLoop_eq_none c.slots c.count 0 (fun j _ hj => hfull j hj)
    have hstep : add_movie c m
        = { slots := c.slots.set c.count (some m), count := c.count + 1 } := by
      unfold add_movie
      rw [hfind]
    rw [hstep]
    exact ⟨rfl, getD_set_eq _ _ _ _ hwf, by simp,
      fun k hk => getD_set_ne _ _ _ _ _ (fun h => hk h.symm)⟩
  · intro j hj hnull hleast
    have hfind : findNullLoop c.slots 0 c.count = some j :=
      findNullLoop_eq_some c.slots c.count j hj hnull hleast
    have hstep : add_movie c m = { c with slots := c.slots.set j (some m) } := by
      unfold add_movie
      rw [hfind]
    rw [hstep]
    exact ⟨rfl, getD_set_eq _ _ _ _ (by omega), by simp,
      fun k hk => getD_set_ne _ _ _ _ _ (fun h => hk h.symm)⟩

/-- Witness for `add_movie_spec`: with a gap at index 1 (below count 3)
the new movie lands at index 1 and the count stays 3; with no gap it lands
at index `count` and the count increments. -/
theorem add_movie_spec_witness :
    (add_movie
        ⟨[some { title := "A", director := "DA", year := 1990, rating := none }, none,
          some { title := "C", director := "DC", year := 1992, rating := none }, none], 3⟩
        { title := "N", director := "DN", year := 2000, rating := none }).count = 3
    ∧ (add_movie
        ⟨[some { title := "A", director := "DA", year := 1990, rating := none }, none,
          some { title := "C", director := "DC", year := 1992, rating := none }, none], 3⟩
        { title := "N", director := "DN", year := 2000, rating := none }).slots.getD 1 none
      = some { title := "N", director := "DN", year := 2000, rating := none }
    ∧ (add_movie
        ⟨[some { title := "A", director := "DA", year := 1990, rating := none }, none], 1⟩
        { title := "N", director := "DN", year := 2000, rating := none }).count = 1 + 1
    ∧ (add_movie
        ⟨[some { title := "A", director := "DA", year := 1990, rating := none }, none], 1⟩
        { title := "N", director := "DN", year := 2000, rating := none }).slots.getD 1 none
      = some { title := "N", director := "DN", year := 2000, rating := none } := by
  refine ⟨?_, ?_, ?_, ?_⟩
  · exact ((add_movie_spec
      ⟨[some { title := "A", director := "DA", year := 1990, rating := none }, none,
        some { title := "C", director := "DC", year := 1992, rating := none }, none], 3⟩
      { title := "N", director := "DN", year := 2000, rating := none } (by decide)).2
      1 (by decide) (by decide) (by decide)).1
  · exact ((add_movie_spec
      ⟨[some { title := "A", director := "DA", year := 1990, rating := none }, none,
        some { title := "C", director := "DC", year := 1992, rating := none }, none], 3⟩
      { title := "N", director := "DN", year := 2000, rating := none } (by decide)).2
      1 (by decide) (by decide) (by decide)).2.1
  · exact ((add_movie_spec
      ⟨[some { title := "A", director := "DA", year := 1990, rating := none }, none], 1⟩
      { title := "N", director := "DN", year := 2000, rating := none } (by decide)).1
      (by decide)).1
  · exact ((add_movie_spec
      ⟨[some { title := "A", director := "DA", year := 1990, rating := none }, none], 1⟩
      { title := "N", director := "DN", year := 2000, rating := none } (by decide)).1
      (by decide)).2.1

/-- `resize_entries` of `main.c`:
`*capacity *= 2; return realloc(entries, (*capacity) * sizeof(void*));`.
The capacity out-parameter is doubled BEFORE the reallocation is
attempted.  `allocOk` models whether `realloc` succeeds; on success the
new block holds the old contents followed by indeterminate fresh cells
(modelled as `none`: no operation of the program reads a cell at an index
`≥ count`), on failure `realloc` returns NULL — but the doubled capacity
is returned either way. -/
def resize_entries (entries : List (Option Movie)) (capacity : Nat) (allocOk : Bool) :
    Option (List (Option Movie)) × Nat :=
  (if allocOk then some (entries ++ List.replicate (capacity * 2 - entries.length) none)
   else none,
   capacity * 2)

/-- C3 failing input: growing a catalog of capacity 10 whose reallocation
fails still returns the doubled capacity 20 — the capacity value is
mutated even though the storage was not obtained, so the catalog is not
left in its pre-call state. -/
theorem resize_entries_fail_still_doubles :
    resize_entries (List.replicate 10 none) 10 false = (none, 20) ∧ (20 : Nat) ≠ 10 :=
  ⟨rfl, by decide⟩

/-- A successful `resize_entries` as invoked by `main.c`/`load_movies_from_file`
when `count == capacity` (capacity is the allocated length of the array). -/
def grow (c : Catalog) : Catalog :=
  { c with slots := (resize_entries c.slots c.slots.length true).1.getD [] }

theorem grow_slots (c : Catalog) :
    (grow c).slots = c.slots ++ List.replicate (c.slots.length * 2 - c.slots.length) none := by
  unfold grow resize_entries
  simp

theorem grow_length (c : Catalog) : (grow c).slots.length = c.slots.length * 2 := by
  rw [grow_slots]
  simp
  omega

theorem grow_preserves (c : Catalog) (i : Nat) (h : i < c.slots.length) :
    (grow c).slots.getD i none = c.slots.getD i none := by
  rw [grow_slots, List.getD_eq_getElem?_getD, List.getD_eq_getElem?_getD,
    List.getElem?_append_left h]

/-- One iteration of the `MENU_MOVIE_ADD` case of `main.c`'s loop, for a
successfully created movie: grow exactly when `movie_count == movie_capacity`,
then place the movie via the gap scan. -/
def addStep (c : Catalog) (m : Movie) : Catalog :=
  if c.count = c.slots.length then add_movie (grow c) m else add_movie c m

theorem add_movie_preserves_bounds (c : Catalog) (m : Movie)
    (h1 : 0 < c.slots.length) (h2 : c.count < c.slots.length) :
    0 < (add_movie c m).slots.length
    ∧ (add_movie c m).count ≤ (add_movie c m).slots.length := by
  unfold add_movie
  cases hf : findNullLoop c.slots 0 c.count with
  | some j => simpa using ⟨h1, by omega⟩
  | none => simpa using ⟨h1, by omega⟩

theorem addStep_preserves_bounds (c : Catalog) (m : Movie)
    (h1 : 0 < c.slots.length) (h2 : c.count ≤ c.slots.length) :
    0 < (addStep c m).slots.length
    ∧ (addStep c m).count ≤ (addStep c m).slots.length := by
  unfold addStep
  by_cases hc : c.count = c.slots.length
  · rw [if_pos hc]
    have hg1 : 0 < (grow c).slots.length := by rw [grow_length]; omega
    have hg2 : (grow c).count < (grow c).slots.length := by
      rw [grow_length]
      show c.count < c.slots.length * 2
      omega
    exact add_movie_preserves_bounds (grow c) m hg1 hg2
  · rw [if_neg hc]
    exact add_movie_preserves_bounds c m h1 (by omega)

/-- C9: over any sequence of adds starting from an initial capacity
`c0 > 0` and an empty catalog, `count ≤ capacity` holds at the end (and,
by the inductive lemmas, after every step); the grow step is taken exactly
when `count` equals the capacity; and a grow changes no existing cell —
every record kept below the old capacity is bit-for-bit preserved. -/
theorem add_seq_invariant (ms : List Movie) (c0 : Nat) (h0 : 0 < c0) :
    (ms.foldl addStep ⟨List.replicate c0 none, 0⟩).count
      ≤ (ms.foldl addStep ⟨List.replicate c0 none, 0⟩).slots.length
    ∧ (∀ c : Catalog, ∀ i, i < c.slots.length →
        (grow c).slots.getD i none = c.slots.getD i none)
    ∧ (∀ c : Catalog, (grow c).count = c.count)
    ∧ (∀ (c : Catalog) (m : Movie), c.count = c.slots.length →
        addStep c m = add_movie (grow c) m)
    ∧ (∀ (c : Catalog) (m : Movie), c.count ≠ c.slots.length →
        addStep c m = add_movie c m) := by
  have main : ∀ (l : List Movie) (c : Catalog), 0 < c.slots.length →
      c.count ≤ c.slots.length →
      0 < (l.foldl addStep c).slots.length
      ∧ (l.foldl addStep c).count ≤ (l.foldl addStep c).slots.length := by
    intro l
    induction l with
    | nil => intro c h1 h2; exact ⟨h1, h2⟩
    | cons m rest ih =>
        intro c h1 h2
        have hstep := addStep_preserves_bounds c m h1 h2
        exact ih (addStep c m) hstep.1 hstep.2
  refine ⟨(main ms ⟨List.replicate c0 none, 0⟩ (by simpa using h0) (by simp)).2,
    grow_preserves, fun c => rfl, ?_, ?_⟩
  · intro c m hc
    unfold addStep
    rw [if_pos hc]
  · intro c m hc
    unfold addStep
    rw [if_neg hc]

/-- Witness for `add_seq_invariant`: three adds into an initial capacity
of 1 (forcing two grows) end with `count ≤ capacity`. -/
theorem add_seq_invariant_witness :
    ([{ title := "A", director := "DA", year := 1990, rating := none },
      { title := "B", director := "DB", year := 1991, rating := none },
      { title := "C", director := "DC", year := 1992, rating := none }].foldl addStep
        ⟨List.replicate 1 none, 0⟩).count
      ≤ ([{ title := "A", director := "DA", year := 1990, rating := none },
          { title := "B", director := "DB", year := 1991, rating := none },
          { title := "C", director := "DC", year := 1992, rating := none }].foldl addStep
            ⟨List.replicate 1 none, 0⟩).slots.length :=
  (add_seq_invariant
    [{ title := "A", director := "DA", year := 1990, rating := none },
     { title := "B", director := "DB", year := 1991, rating := none },
     { title := "C", director := "DC", year := 1992, rating := none }] 1 (by decide)).1

/-- The `%.1f` rendering of the rating in `save_movies_to_file`.  The only
write to the rating field in the program (`rate_movie`) stores an integer
1–5, and `%.1f` prints such an integer-valued float as the integer
followed by `.0`.  A `none` rating is the never-assigned (indeterminate)
field; printing it is not a defined behaviour and the placeholder below is
excluded by hypothesis in every theorem that touches it. -/
def fmtRating : Option Nat → String
  | some r => toString r ++ ".0"
  | none => "?"

/-- One output line of `save_movies_to_file`:
`fprintf(file, "%s|%s|%d|%.1f\n", title, director, year, rating)`. -/
def movieLine (m : Movie) : String :=
  m.title ++ "|" ++ m.director ++ "|" ++ toString m.year ++ "|" ++ fmtRating m.rating ++ "\n"

/-- The writing loop of `save_movies_to_file` in `main.c`:
`for (i = 0; i < count; ++i) if (movies[i] != NULL) fprintf(...)`.
The file was opened with mode `"w"`, so this string is the entire new
content of the destination (prior contents are discarded). -/
def save_movies_loop (slots : List (Option Movie)) (i count : Nat) : String :=
  if i < count then
    (match slots.getD i none with
     | some m => movieLine m
     | none => "") ++ save_movies_loop slots (i+1) count
  else ""
termination_by count - i

/-- `save_movies_to_file` of `main.c`, as the full text written to the
(truncated) destination file. -/
def save_movies_to_file (slots : List (Option Movie)) (count : Nat) : String :=
  save_movies_loop slots 0 count

/-- Concatenation of a list of lines (already newline-terminated). -/
def concatLines : List String → String
  | [] => ""
  | s :: rest => s ++ concatLines rest

theorem concatLines_cons (s : String) (l : List String) :
    concatLines (s :: l) = s ++ concatLines l := rfl

theorem save_movies_loop_eq (count : Nat) :
    ∀ (k : Nat) (slots : List (Option Movie)) (i : Nat), count ≤ slots.length →
      count - i = k →
      save_movies_loop slots i count
        = concatLines ((((slots.drop i).take (count - i)).filterMap id).map movieLine) := by
  intro k
  induction k with
  | zero =>
      intro slots i hlen hk
      rw [save_movies_loop, if_neg (by omega), show count - i = 0 from hk]
      simp [concatLines]
  | succ n ih =>
      intro slots i hlen hk
      have hi : i < count := by omega
      have hil : i < slots.length := by omega
      have hgetD : slots.getD i none = slots[i] := by
        rw [List.getD_eq_getElem?_getD, List.getElem?_eq_getElem hil]
        rfl
      have hrest := ih slots (i+1) hlen (by omega)
      rw [show count - (i + 1) = n from by omega] at hrest
      rw [save_movies_loop, if_pos hi, List.drop_eq_getElem_cons hil,
        show count - i = n + 1 from hk, List.take_succ_cons, hgetD, hrest]
      cases hx : slots[i] with
      | some m => simp [concatLines_cons]
      | none => simp

/-- C7: the text written by Save is the concatenation, in ascending slot
order, of exactly one line per occupied slot among the first `count`
cells — NULL cells contribute nothing — and (second conjunct) each line
for a rated record is `title|director|year|rating\n` with the year in
decimal and the rating printed with exactly one digit (`0`) after the
decimal point.  The destination is opened with mode "w", so this string
replaces the file's previous contents entirely. -/
theorem save_movies_spec (slots : List (Option Movie)) (count : Nat)
    (hwf : count ≤ slots.length) :
    save_movies_to_file slots count
      = concatLines (((slots.take count).filterMap id).map movieLine)
    ∧ (∀ (m : Movie) (r : Nat), m.rating = some r →
        movieLine m = m.title ++ "|" ++ m.director ++ "|" ++ toString m.year
          ++ "|" ++ (toString r ++ ".0") ++ "\n") := by
  constructor
  · have h := save_movies_loop_eq count (count - 0) slots 0 hwf rfl
    simpa [save_movies_to_file] using h
  · intro m r hr
    rw [movieLine, hr]
    rfl

/-- Witness for `save_movies_spec`: a catalog with an occupied, an empty
and another occupied cell produces exactly the two expected lines, and a
rated line carries the rating with one digit after the decimal point. -/
theorem save_movies_spec_witness :
    save_movies_to_file
        [some { title := "A", director := "DA", year := 1990, rating := some 4 }, none,
         some { title := "C", director := "DC", year := 1992, rating := some 3 }] 3
      = concatLines ((([some { title := "A", director := "DA", year := 1990, rating := some 4 },
          none,
          some { title := "C", director := "DC", year := 1992, rating := some 3 }].take 3).filterMap
            id).map movieLine)
    ∧ save_movies_to_file
        [some { title := "A", director := "DA", year := 1990, rating := some 4 }, none,
         some { title := "C", director := "DC", year := 1992, rating := some 3 }] 3
      = "A|DA|1990|4.0\nC|DC|1992|3.0\n" := by
  have h := (save_movies_spec
    [some { title := "A", director := "DA", year := 1990, rating := some 4 }, none,
     some { title := "C", director := "DC", year := 1992, rating := some 3 }] 3 (by decide)).1
  exact ⟨h, h.trans (by decide)⟩

/-- The `isspace` class used by `atoi`: space and the characters 9–13
(tab, newline, vertical tab, form feed, carriage return). -/
def isSpaceC (c : Char) : Bool := c == ' ' || (9 ≤ c.toNat && c.toNat ≤ 13)

/-- The digit-accumulation loop of C `atoi`: consume leading decimal
digits, stopping at the first non-digit (48 is the code of '0'). -/
def digitsLoop : List Char → Int → Int
  | c :: rest, acc => if c.isDigit then digitsLoop rest (acc * 10 + ((c.toNat : Int) - 48)) else acc
  | [], acc => acc

/-- C `atoi` after whitespace skipping: an optional single sign followed
by the digit loop; text with no leading digits yields 0. -/
def atoiSigned : List Char → Int
  | [] => 0
  | c :: rest =>
      if c = '-' then - digitsLoop rest 0
      else if c = '+' then digitsLoop rest 0
      else digitsLoop (c :: rest) 0

/-- C `atoi` (lenient integer parse, as used on the year token of a loaded
line; integer overflow is not modelled). -/
def atoi (s : String) : Int := atoiSigned (s.toList.dropWhile isSpaceC)

def headIsDigit : List Char → Bool
  | c :: _ => c.isDigit
  | [] => false

/-- Whether `atoi` will see at least one digit (after whitespace and an
optional sign): the "numeric" test for a year token. -/
def numericStart : List Char → Bool
  | [] => false
  | c :: rest => if c = '-' ∨ c = '+' then headIsDigit rest else c.isDigit

def hasNumericPrefix (s : String) : Bool := numericStart (s.toList.dropWhile isSpaceC)

theorem digitsLoop_eq_zero (cs : List Char) (h : headIsDigit cs = false) :
    digitsLoop cs 0 = 0 := by
  cases cs with
  | nil => rfl
  | cons a rest =>
      simp only [headIsDigit] at h
      unfold digitsLoop
      simp [h]

theorem atoiSigned_eq_zero (cs : List Char) (h : numericStart cs = false) :
    atoiSigned cs = 0 := by
  cases cs with
  | nil => rfl
  | cons a rest =>
      simp only [numericStart] at h
      simp only [atoiSigned]
      by_cases h1 : a = '-'
      · rw [if_pos h1]
        rw [if_pos (Or.inl h1)] at h
        rw [digitsLoop_eq_zero rest h]
        rfl
      · by_cases h2 : a = '+'
        · rw [if_neg h1, if_pos h2]
          rw [if_pos (Or.inr h2)] at h
          exact digitsLoop_eq_zero rest h
        · rw [if_neg h1, if_neg h2]
          rw [if_neg (by tauto)] at h
          exact digitsLoop_eq_zero (a :: rest) (by simpa [headIsDigit] using h)

/-- A year token with no leading digits parses to 0, as C `atoi` does. -/
theorem atoi_eq_zero_of_not_numeric (s : String) (h : hasNumericPrefix s = false) :
    atoi s = 0 :=
  atoiSigned_eq_zero _ h

/-- `line[strcspn(line, "\n")] = 0` of `load_movies_from_file`: truncate
the buffer at the first newline. -/
def trimNewline (s : String) : String := String.mk (s.toList.takeWhile (fun c => !(c == '\n')))

/-- Split on the `|` delimiter, keeping empty fields (the raw field
decomposition underlying `strtok`). -/
def splitBar : List Char → List (List Char)
  | [] => [[]]
  | c :: rest =>
      if c = '|' then [] :: splitBar rest
      else match splitBar rest with
        | t :: ts => (c :: t) :: ts
        | [] => [[c]]

/-- The successive `strtok(line, "|")` tokens: `strtok` treats consecutive
delimiters as one, so its tokens are exactly the non-empty fields. -/
def strtokTokens (s : String) : List String :=
  ((splitBar s.toList).filter (fun t => !t.isEmpty)).map (fun t => String.mk t)

/-- The in-loop resize of `load_movies_from_file`:
`if (*count == *capacity) *movies = resize_entries(...)`; reallocation is
assumed to succeed here (on failure the C code would dereference NULL). -/
def loadResize (c : Catalog) : Catalog :=
  if c.count = c.slots.length then grow c else c

/-- One iteration of the `fgets` loop of `load_movies_from_file`: trim the
newline, resize if full, split the line with `strtok`; with three tokens,
parse the year with `atoi` and append the record `create_movie` makes (if
any) at index `count`; otherwise print a diagnostic to stderr (returned as
the second component) and continue. -/
def loadLine (c : Catalog) (line : String) : Catalog × Option String :=
  match strtokTokens (trimNewline line) with
  | title :: director :: year_str :: _ =>
      match create_movie (some title) (some director) (atoi year_str) with
      | some m => ({ slots := (loadResize c).slots.set (loadResize c).count (some m),
                     count := (loadResize c).count + 1 }, none)
      | none => (loadResize c, none)
  | _ => (loadResize c, some ("Error parsing line: " ++ trimNewline line))

/-- `load_movies_from_file` of `main.c` over the file's lines (each line
assumed shorter than the 256-byte `fgets` buffer). -/
def load_movies_from_file (lines : List String) (c : Catalog) : Catalog :=
  lines.foldl (fun acc l => (loadLine acc l).1) c

theorem loadResize_count (c : Catalog) : (loadResize c).count = c.count := by
  unfold loadResize
  by_cases h : c.count = c.slots.length
  · rw [if_pos h]
    rfl
  · rw [if_neg h]

theorem loadResize_getD (c : Catalog) (j : Nat) (hj : j < c.count)
    (_hwf : c.count ≤ c.slots.length) :
    (loadResize c).slots.getD j none = c.slots.getD j none := by
  unfold loadResize
  by_cases h : c.count = c.slots.length
  · rw [if_pos h]
    exact grow_preserves c j (by omega)
  · rw [if_neg h]

/-- C8: a loaded line that does not yield three `strtok` tokens (which are
necessarily non-empty) is skipped with the stderr diagnostic — no record
is added, the count and the records below it are untouched, and the fold
continues with the remaining lines; a line whose year token has no leading
digits parses to year 0 via `atoi`, which makes `create_movie` fail, and
the line is likewise skipped with the count unchanged.  (The in-loop
resize may still double the capacity before the line is examined.) -/
theorem load_line_skips_malformed (c : Catalog) (line : String)
    (hwf : c.count ≤ c.slots.length) :
    ((strtokTokens (trimNewline line)).length < 3 →
      (loadLine c line).2 = some ("Error parsing line: " ++ trimNewline line)
      ∧ (loadLine c line).1.count = c.count
      ∧ (∀ j, j < c.count → (loadLine c line).1.slots.getD j none = c.slots.getD j none)
      ∧ (∀ rest : List String, load_movies_from_file (line :: rest) c
          = load_movies_from_file rest (loadLine c line).1))
    ∧ (∀ t d y rest, strtokTokens (trimNewline line) = t :: d :: y :: rest →
        hasNumericPrefix y = false →
        atoi y = 0
        ∧ create_movie (some t) (some d) (atoi y) = none
        ∧ (loadLine c line).2 = none
        ∧ (loadLine c line).1.count = c.count
        ∧ (∀ j, j < c.count → (loadLine c line).1.slots.getD j none = c.slots.getD j none)) := by
  constructor
  · intro hlen
    have hstep : loadLine c line
        = (loadResize c, some ("Error parsing line: " ++ trimNewline line)) := by
      unfold loadLine
      cases htk : strtokTokens (trimNewline line) with
      | nil => rfl
      | cons t rest1 =>
          cases rest1 with
          | nil => rfl
          | cons d rest2 =>
              cases rest2 with
              | nil => rfl
              | cons y rest3 =>
                  exfalso
                  rw [htk] at hlen
                  simp at hlen
                  omega
    exact ⟨by rw [hstep], by rw [hstep]; exact loadResize_count c,
      fun j hj => by rw [hstep]; exact loadResize_getD c j hj hwf,
      fun rest => rfl⟩
  · intro t d y rest htk hnum
    have hz : atoi y = 0 := atoi_eq_zero_of_not_numeric y hnum
    have hcreate : create_movie (some t) (some d) (atoi y) = none := by
      rw [hz]
      simp [create_movie]
    have hstep : loadLine c line = (loadResize c, none) := by
      unfold loadLine
      simp only [htk, hcreate]
    rw [hstep]
    exact ⟨hz, hcreate, rfl, loadResize_count c, fun j hj => loadResize_getD c j hj hwf⟩

/-- Witness for `load_line_skips_malformed`: `"BadLine"` (one token) is
skipped with a diagnostic and adds nothing; `"Movie|Dir|abcd"` has a
non-numeric year, so the record fails construction and the count stays 0. -/
theorem load_line_skips_malformed_witness :
    (loadLine ⟨List.replicate 2 none, 0⟩ "BadLine").2
      = some ("Error parsing line: " ++ trimNewline "BadLine")
    ∧ (loadLine ⟨List.replicate 2 none, 0⟩ "BadLine").1.count = 0
    ∧ atoi "abcd" = 0
    ∧ (loadLine ⟨List.replicate 2 none, 0⟩ "Movie|Dir|abcd").1.count = 0 := by
  refine ⟨?_, ?_, ?_, ?_⟩
  · exact ((load_line_skips_malformed ⟨List.replicate 2 none, 0⟩ "BadLine"
      (by decide)).1 (by decide)).1
  · exact ((load_line_skips_malformed ⟨List.replicate 2 none, 0⟩ "BadLine"
      (by decide)).1 (by decide)).2.1
  · exact ((load_line_skips_malformed ⟨List.replicate 2 none, 0⟩ "Movie|Dir|abcd"
      (by decide)).2 "Movie" "Dir" "abcd" [] (by decide) (by decide)).1
  · exact ((load_line_skips_malformed ⟨List.replicate 2 none, 0⟩ "Movie|Dir|abcd"
      (by decide)).2 "Movie" "Dir" "abcd" [] (by decide) (by decide)).2.2.2.1

/-- C4 failing input: loading `Inception|Nolan|2010|4.5` followed by
`BadLine` yields one record — but its rating field is the uninitialized
(indeterminate) `none`, not the `0` the claim promises: neither
`create_movie` nor the loader ever assigns the malloc-ed `rating` field,
and the file's `4.5` is never read back. -/
theorem load_rating_not_restored :
    load_movies_from_file ["Inception|Nolan|2010|4.5", "BadLine"]
        ⟨List.replicate 10 none, 0⟩
      = ⟨some { title := "Inception", director := "Nolan", year := 2010, rating := none }
          :: List.replicate 9 none, 1⟩
    ∧ (load_movies_from_file ["Inception|Nolan|2010|4.5", "BadLine"]
        ⟨List.replicate 10 none, 0⟩).count = 1
    ∧ (∀ r : Nat, (load_movies_from_file ["Inception|Nolan|2010|4.5", "BadLine"]
        ⟨List.replicate 10 none, 0⟩).slots.getD 0 none
        ≠ some { title := "Inception", director := "Nolan", year := 2010, rating := some r })
    ∧ create_movie (some "Inception") (some "Nolan") 2010
      = some { title := "Inception", director := "Nolan", year := 2010, rating := none } := by
  refine ⟨by decide, by decide, ?_, by decide⟩
  intro r
  have h : (load_movies_from_file ["Inception|Nolan|2010|4.5", "BadLine"]
      ⟨List.replicate 10 none, 0⟩).slots.getD 0 none
      = some { title := "Inception", director := "Nolan", year := 2010, rating := none } := by
    decide
  rw [h]
  intro hc
  have := (Option.some.injEq _ _).mp hc
  exact Option.noConfusion (congrArg Movie.rating this)
